import Mathlib

/-!
# Verification of the `dbase` driver-abstraction layer

A shallow embedding of the `dbase` Go library: the error taxonomy
(`errors.go`), the generic query model (`query.go`), the hook dispatch
protocol (`hooks.go`), the driver registry (`db.go` registry section), and
the query-translation layers of the two driver adapters
(`driver/bolt/bolt.go`, `driver/gorm/gorm.go`).

External storage engines (Storm/BoltDB, GORM's SQL engines) are abstracted
as parameters: a driver function receives the outcome of each engine call
it makes, so every theorem quantifies over all possible engine behaviours.
-/

namespace Dbase

/-! ## Error taxonomy (`errors.go`)

Go error values: `errors.New` produces a distinct sentinel value (identified
here by its message string, all messages being distinct), and
`fmt.Errorf("...: %w", err)` wraps an inner error with added context.
-/

/-- A Go error value: a sentinel (`errors.New`) or a wrapping error
(`fmt.Errorf` with `%w`). -/
inductive GoErr where
  | sentinel (msg : String)
  | wrap (ctx : String) (inner : GoErr)
deriving DecidableEq, Repr

/-- `errors.Is`: reports whether `err` or any error in its unwrap chain
equals `target`. -/
def errIs : GoErr → GoErr → Bool
  | .wrap c inner, target => (GoErr.wrap c inner == target) || errIs inner target
  | e, target => e == target

/-- `ErrNotFound`: returned when a requested record does not exist. -/
def ErrNotFound : GoErr := .sentinel "dbase: record not found"

/-- `ErrAlreadyExists`: returned when attempting to create a duplicate record. -/
def ErrAlreadyExists : GoErr := .sentinel "dbase: record already exists"

/-- `ErrInvalidModel`. -/
def ErrInvalidModel : GoErr := .sentinel "dbase: invalid model"

/-- `ErrTxFailed`. -/
def ErrTxFailed : GoErr := .sentinel "dbase: transaction failed"

/-- `ErrNotSupported`: returned when an operation is not supported by the driver. -/
def ErrNotSupported : GoErr := .sentinel "dbase: operation not supported"

/-- `ErrClosed`. -/
def ErrClosed : GoErr := .sentinel "dbase: database closed"

/-- `IsNotFound` reports whether err is or wraps `ErrNotFound`. -/
def IsNotFound (err : GoErr) : Bool := errIs err ErrNotFound

/-- `IsAlreadyExists` reports whether err is or wraps `ErrAlreadyExists`. -/
def IsAlreadyExists (err : GoErr) : Bool := errIs err ErrAlreadyExists

/-- The innermost (fully unwrapped) error of a chain. -/
def errBase : GoErr → GoErr
  | .wrap _ inner => errBase inner
  | e => e

/-- Wrap an error in several layers of context, innermost context last. -/
def wrapMany : List String → GoErr → GoErr
  | [], e => e
  | c :: cs, e => .wrap c (wrapMany cs e)

/-! ## Query model (`query.go`) -/

/-- `Operator` is a string type in the source; the enumerated constants follow. -/
abbrev Operator := String

def OpEqual : Operator := "eq"
def OpNotEqual : Operator := "ne"
def OpGreater : Operator := "gt"
def OpGreaterEqual : Operator := "ge"
def OpLess : Operator := "lt"
def OpLessEqual : Operator := "le"
def OpIn : Operator := "in"
def OpNotIn : Operator := "not_in"
def OpLike : Operator := "like"
def OpPrefix : Operator := "prefix"
def OpIsNull : Operator := "is_null"
def OpNotNull : Operator := "not_null"

/-- A dynamically-typed Go value (`any`), restricted to the shapes the
query layer manipulates. -/
inductive Value where
  | vInt (n : Int)
  | vStr (s : String)
  | vBool (b : Bool)
  | vNull
  | vList (l : List Value)

mutual

/-- Structural equality of Go values (reflect.DeepEqual-style comparison
used by the Storm matcher layer). -/
def Value.beq : Value → Value → Bool
  | .vInt a, .vInt b => a == b
  | .vStr a, .vStr b => a == b
  | .vBool a, .vBool b => a == b
  | .vNull, .vNull => true
  | .vList a, .vList b => Value.beqList a b
  | _, _ => false

/-- Pointwise equality of value lists. -/
def Value.beqList : List Value → List Value → Bool
  | [], [] => true
  | x :: xs, y :: ys => Value.beq x y && Value.beqList xs ys
  | _, _ => false

end

instance : BEq Value := ⟨Value.beq⟩

/-- `Condition` represents a single query condition. -/
structure Condition where
  Field : String
  Operator : Operator
  Value : Value
  Or : Bool

/-- `Order` represents a sort order for query results. -/
structure Order where
  Field : String
  Descending : Bool

/-- `Query` represents a generic database query. -/
structure Query where
  Conditions : List Condition
  Limit : Int
  Offset : Int
  OrderBy : List Order

/-! ## Hook protocol (`hooks.go`, `model.go`)

A model is abstracted by which optional hook interfaces it implements and
by the outcome each implemented hook produces: `none` means the interface
is not implemented (the type assertion fails and the hook is skipped);
`some r` means it is implemented and returns `r` (`none` = nil error).
Hook invocations and engine writes are recorded as a trace of events so
that ordering and write-attempted facts are observable.
-/

/-- Observable events of a mutating driver operation. -/
inductive Event where
  | beforeSave
  | beforeCreate
  | afterCreate
  | afterSave
  | beforeUpdate
  | afterUpdate
  | beforeDelete
  | afterDelete
  | write
  | updateWrite
  | deleteWrite
deriving DecidableEq, Repr

/-- A model, abstracted by its optional hook capabilities. -/
structure HookModel where
  beforeSave : Option (Option GoErr)
  afterSave : Option (Option GoErr)
  beforeCreate : Option (Option GoErr)
  afterCreate : Option (Option GoErr)
  beforeUpdate : Option (Option GoErr)
  afterUpdate : Option (Option GoErr)
  beforeDelete : Option (Option GoErr)
  afterDelete : Option (Option GoErr)

/-- The `if h, ok := model.(SomeHook); ok { if err := h.Hook(ctx); err != nil { return err } }`
pattern: probe a capability, invoke it if present, record the event. -/
def runHook (h : Option (Option GoErr)) (ev : Event) : List Event × Option GoErr :=
  match h with
  | none => ([], none)
  | some res => ([ev], res)

/-- Sequencing with early return on a non-nil error, accumulating the trace. -/
def andThen (x : List Event × Option GoErr) (f : Unit → List Event × Option GoErr) :
    List Event × Option GoErr :=
  match x with
  | (tr, some e) => (tr, some e)
  | (tr, none) =>
      let y := f ()
      (tr ++ y.1, y.2)

/-- `RunBeforeCreateHooks`: BeforeSave (if implemented) then BeforeCreate. -/
def RunBeforeCreateHooks (m : HookModel) : List Event × Option GoErr :=
  andThen (runHook m.beforeSave .beforeSave) fun _ =>
    runHook m.beforeCreate .beforeCreate

/-- `RunAfterCreateHooks`: AfterCreate (if implemented) then AfterSave. -/
def RunAfterCreateHooks (m : HookModel) : List Event × Option GoErr :=
  andThen (runHook m.afterCreate .afterCreate) fun _ =>
    runHook m.afterSave .afterSave

/-- `RunBeforeUpdateHooks`: BeforeSave (if implemented) then BeforeUpdate. -/
def RunBeforeUpdateHooks (m : HookModel) : List Event × Option GoErr :=
  andThen (runHook m.beforeSave .beforeSave) fun _ =>
    runHook m.beforeUpdate .beforeUpdate

/-- `RunAfterUpdateHooks`: AfterUpdate (if implemented) then AfterSave. -/
def RunAfterUpdateHooks (m : HookModel) : List Event × Option GoErr :=
  andThen (runHook m.afterUpdate .afterUpdate) fun _ =>
    runHook m.afterSave .afterSave

/-- `RunBeforeDeleteHooks`: BeforeDelete if implemented. -/
def RunBeforeDeleteHooks (m : HookModel) : List Event × Option GoErr :=
  runHook m.beforeDelete .beforeDelete

/-- `RunAfterDeleteHooks`: AfterDelete if implemented. -/
def RunAfterDeleteHooks (m : HookModel) : List Event × Option GoErr :=
  runHook m.afterDelete .afterDelete

/-! ## Mutating driver operations (hook dispatch shape)

`driver/bolt` `Create` and `driver/gorm` `Create` have the same body up to
the engine call (`d.node.Save(model)` vs `d.gdb.Create(model)`), which is
abstracted as the parameter `w`: the outcome of the engine write.  The same
holds for `Save` (`d.node.Save` vs `d.gdb.Save`) and `Update`.
-/

/-- `DB.Create` (both drivers): run before-create hooks, then the engine
write, then after-create hooks, stopping at the first error. -/
def Create (m : HookModel) (w : Option GoErr) : List Event × Option GoErr :=
  andThen (RunBeforeCreateHooks m) fun _ =>
    andThen ([Event.write], w) fun _ =>
      RunAfterCreateHooks m

/-- `DB.Save` (both drivers): identical dispatch to `Create`; only the
engine call differs (an upsert, whose outcome is again `w`). -/
def Save (m : HookModel) (w : Option GoErr) : List Event × Option GoErr :=
  andThen (RunBeforeCreateHooks m) fun _ =>
    andThen ([Event.write], w) fun _ =>
      RunAfterCreateHooks m

/-- `DB.Update` (both drivers): update-hook dispatch around the engine update. -/
def Update (m : HookModel) (w : Option GoErr) : List Event × Option GoErr :=
  andThen (RunBeforeUpdateHooks m) fun _ =>
    andThen ([Event.updateWrite], w) fun _ =>
      RunAfterUpdateHooks m

/-- `driver/bolt` `DB.Delete`: delete-hook dispatch around
`d.node.DeleteStruct(model)`.  The `id` argument is part of the signature;
`w` is the outcome of `DeleteStruct`, which is a function of the model (and
engine state) only. -/
def boltDelete (m : HookModel) (id : Value) (w : Option GoErr) :
    List Event × Option GoErr :=
  andThen (RunBeforeDeleteHooks m) fun _ =>
    andThen ([Event.deleteWrite], w) fun _ =>
      RunAfterDeleteHooks m

/-! ## Driver registry (`db.go`)

The registry is the package-level `factories` map.  A Go map keyed by
string is modelled as an association list (insertion order is irrelevant
because `Register` keeps names unique); a factory produces either a
database handle or an error.  `Register`'s panic is modelled as the `none`
outcome.
-/

/-- An opaque database handle (the `Database` a factory returns). -/
abbrev DBHandle := Nat

/-- `Config`: the subset of fields the registry reads (`Type` is the
driver name looked up in the registry; `Type` being a Lean keyword, the
field is named `typ`). -/
structure Config where
  typ : String
  Path : String
  DSN : String

/-- `Factory`: a function that creates a Database from a Config. -/
abbrev Factory := Config → Except GoErr DBHandle

/-- The `factories` map. -/
abbrev Registry := List (String × Factory)

/-- Map lookup `factories[name]`. -/
def lookupFactory (reg : Registry) (name : String) : Option Factory :=
  (reg.find? (fun p => p.1 == name)).map (fun p => p.2)

/-- `Register`: adds a factory under a name; panics (modelled as `none`)
if the name is already registered, leaving the map unchanged. -/
def Register (reg : Registry) (name : String) (f : Factory) : Option Registry :=
  if (lookupFactory reg name).isSome then none
  else some (reg ++ [(name, f)])

/-- The error `Open` returns when the config is nil. -/
def nilConfigErr : GoErr := .sentinel "dbase: config must not be nil"

/-- The error `Open` returns for an unregistered driver name, with the
forgotten-import hint (`fmt.Errorf("dbase: unknown driver %q (forgotten import?)", cfg.Type)`). -/
def unknownDriverErr (typ : String) : GoErr :=
  .sentinel ("dbase: unknown driver \x22" ++ typ ++ "\x22 (forgotten import?)")

/-- `Open`: creates a Database using the registered driver named by
`cfg.Type`; nil config and unknown driver produce errors, otherwise the
factory's result is returned unchanged. -/
def Open (reg : Registry) (cfg : Option Config) : Except GoErr DBHandle :=
  match cfg with
  | none => .error nilConfigErr
  | some c =>
      match lookupFactory reg c.typ with
      | none => .error (unknownDriverErr c.typ)
      | some factory => factory c

/-! ## Bolt driver query translation (`driver/bolt/bolt.go`)

Storm matchers (`storm/q`).  `storm.Select(matchers...)` combines the
given matchers conjunctively.  Regular-expression matching (`q.Re`) is an
external collaborator and is abstracted as an oracle parameter where
evaluation is needed.
-/

/-- A Storm matcher as built by `convertToMatchers`. -/
inductive Matcher where
  | meq (field : String) (v : Value)
  | mnot (m : Matcher)
  | mgt (field : String) (v : Value)
  | mgte (field : String) (v : Value)
  | mlt (field : String) (v : Value)
  | mlte (field : String) (v : Value)
  | min (field : String) (v : Value)
  | mre (field : String) (pattern : String)

/-- The matcher (if any) built for one condition: the `switch cond.Operator`
body of `convertToMatchers`.  The `default: continue` branch and the
nil-matcher check (a `like` whose value is not a string) both yield `none`. -/
def boltMatcherOf (c : Condition) : Option Matcher :=
  if c.Operator == OpEqual then some (.meq c.Field c.Value)
  else if c.Operator == OpNotEqual then some (.mnot (.meq c.Field c.Value))
  else if c.Operator == OpGreater then some (.mgt c.Field c.Value)
  else if c.Operator == OpGreaterEqual then some (.mgte c.Field c.Value)
  else if c.Operator == OpLess then some (.mlt c.Field c.Value)
  else if c.Operator == OpLessEqual then some (.mlte c.Field c.Value)
  else if c.Operator == OpIn then some (.min c.Field c.Value)
  else if c.Operator == OpLike then
    match c.Value with
    | .vStr s => some (.mre c.Field s)
    | _ => none
  else none

/-- `convertToMatchers`: translate the conditions of a query, appending
the matcher of each condition that produces one. -/
def convertToMatchers (conds : List Condition) : List Matcher :=
  conds.filterMap boltMatcherOf

/-- Storm's error for a query matching no record (`storm.ErrNotFound`). -/
def stormErrNotFound : GoErr := .sentinel "not found"

/-- The `if err == storm.ErrNotFound { return dbase.ErrNotFound }; return err`
normalization done by the bolt driver's lookup operations. -/
def boltMapNotFound (e : Option GoErr) : Option GoErr :=
  match e with
  | some err => if err == stormErrNotFound then some ErrNotFound else some err
  | none => none

/-- `driver/bolt` `DB.Get`: `d.node.One("ID", id, model)` abstracted as
`engineOne`, followed by not-found normalization. -/
def boltGet (id : Value) (engineOne : Value → Option GoErr) : Option GoErr :=
  boltMapNotFound (engineOne id)

/-- `driver/bolt` `DB.FindOne`: an empty (or nil) query selects with no
matchers, otherwise with the converted matchers; `engineFirst` abstracts
`d.node.Select(ms...).First(result)`. -/
def boltFindOne (q : Option Query) (engineFirst : List Matcher → Option GoErr) :
    Option GoErr :=
  match q with
  | none => boltMapNotFound (engineFirst [])
  | some query =>
      if query.Conditions.isEmpty then boltMapNotFound (engineFirst [])
      else boltMapNotFound (engineFirst (convertToMatchers query.Conditions))

/-- `driver/bolt` `DB.Count`: `d.node.Count(model)` for an empty or nil
query, otherwise `d.node.Select(ms...).Count(model)`; the two engine calls
are abstracted as `countAll` and `countSel`. -/
def boltCount (q : Option Query) (countAll : Int × Option GoErr)
    (countSel : List Matcher → Int × Option GoErr) : Int × Option GoErr :=
  match q with
  | none => countAll
  | some query =>
      if query.Conditions.isEmpty then countAll
      else countSel (convertToMatchers query.Conditions)

/-- `driver/bolt` `DB.Exists`: `count, err := d.Count(...); return count > 0, err`. -/
def boltExists (q : Option Query) (countAll : Int × Option GoErr)
    (countSel : List Matcher → Int × Option GoErr) : Bool × Option GoErr :=
  let r := boltCount q countAll countSel
  (decide (0 < r.1), r.2)

/-! ## Storm matcher evaluation and the contract's fold semantics

Matcher evaluation over a record (a map from field names to values),
following the Storm `q` package: `Eq` is structural equality, `Gt`/`Lt`
compare same-typed ints or strings, `In` tests slice membership, `Not`
negates, `Re` applies a regular expression (abstracted as the oracle
`re : pattern → text → Bool`).  A record is a total assignment of fields
to values.
-/

/-- A stored record, abstracted as an assignment of field names to values. -/
abbrev Record := String → Value

/-- Storm's ordering comparison: defined on two ints or two strings. -/
def Value.ltv : Value → Value → Bool
  | .vInt a, .vInt b => decide (a < b)
  | .vStr a, .vStr b => decide (a < b)
  | _, _ => false

/-- Evaluation of one Storm matcher against a record. -/
def Matcher.eval (re : String → String → Bool) (r : Record) : Matcher → Bool
  | .meq f v => r f == v
  | .mnot m => !(m.eval re r)
  | .mgt f v => Value.ltv v (r f)
  | .mgte f v => Value.ltv v (r f) || (r f == v)
  | .mlt f v => Value.ltv (r f) v
  | .mlte f v => Value.ltv (r f) v || (r f == v)
  | .min f v =>
      match v with
      | .vList l => l.any (fun x => r f == x)
      | _ => false
  | .mre f pat =>
      match r f with
      | .vStr s => re pat s
      | _ => false

/-- `storm.Select(matchers...)` matches a record when every matcher does
(Storm combines the matchers passed to Select conjunctively). -/
def matchersEval (re : String → String → Bool) (ms : List Matcher) (r : Record) : Bool :=
  ms.all (Matcher.eval re r)

/-- Which records a bolt query selects: conjunction of the translated matchers. -/
def boltQueryEval (re : String → String → Bool) (conds : List Condition) (r : Record) :
    Bool :=
  matchersEval re (convertToMatchers conds) r

/-- The bolt driver's evaluation of one condition on its own (used as the
per-condition meaning when comparing against the contract's fold). -/
def condEvalBolt (re : String → String → Bool) (c : Condition) (r : Record) : Bool :=
  matchersEval re (convertToMatchers [c]) r

/-- Modelled from the spec: conditions combine left-to-right; a condition
marked OR combines with the accumulated result of all prior conditions
using OR, otherwise using AND (left-associative boolean fold); zero
conditions match every record. -/
def leftFoldEval (evalc : Condition → Bool) : List Condition → Bool
  | [] => true
  | c :: rest =>
      rest.foldl (fun acc c => if c.Or then acc || evalc c else acc && evalc c) (evalc c)

/-- A condition with its combinator forced to AND. -/
def clearOr (c : Condition) : Condition :=
  { c with Or := false }

/-! ## Gorm driver query translation (`driver/gorm/gorm.go`)

`buildQuery` turns each condition into a SQL clause string plus bound
arguments and hands it to the GORM chain via `tx.Or` (condition marked OR)
or `tx.Where` (otherwise).  The built chain is modelled syntactically; the
SQL engine behind it is an external collaborator.
-/

/-- One condition as handed to the GORM chain: clause text, bound
arguments, and whether it was added via `tx.Or`. -/
structure GormClause where
  sql : String
  args : List Value
  useOr : Bool

/-- `convertOperator`: comparison operators become their SQL spelling;
`like` and `prefix` both become `LIKE`; anything else falls back to `=`. -/
def convertOperator (op : Operator) : String :=
  if op == OpEqual then "="
  else if op == OpNotEqual then "!="
  else if op == OpGreater then ">"
  else if op == OpGreaterEqual then ">="
  else if op == OpLess then "<"
  else if op == OpLessEqual then "<="
  else if op == OpLike then "LIKE"
  else if op == OpPrefix then "LIKE"
  else "="

/-- The clause built for one condition: the `switch cond.Operator` body of
`buildQuery`. -/
def gormClauseOf (c : Condition) : GormClause :=
  if c.Operator == OpIn then ⟨c.Field ++ " IN (?)", [c.Value], c.Or⟩
  else if c.Operator == OpNotIn then ⟨c.Field ++ " NOT IN (?)", [c.Value], c.Or⟩
  else if c.Operator == OpIsNull then ⟨c.Field ++ " IS NULL", [], c.Or⟩
  else if c.Operator == OpNotNull then ⟨c.Field ++ " IS NOT NULL", [], c.Or⟩
  else ⟨c.Field ++ " " ++ convertOperator c.Operator ++ " ?", [c.Value], c.Or⟩

/-- All clauses of a condition list, in order. -/
def gormClauses (conds : List Condition) : List GormClause :=
  conds.map gormClauseOf

/-- The GORM chain state built by `buildQuery`: clauses, `ORDER BY`
fragments, and pagination (absent when not positive). -/
structure GormTx where
  clauses : List GormClause
  orders : List String
  limit : Option Int
  offset : Option Int

/-- `buildQuery`: nil query adds nothing; otherwise conditions, order
fragments (`"<field> ASC|DESC"`), and positive limit/offset are applied. -/
def gormBuildQuery (q : Option Query) : GormTx :=
  match q with
  | none => ⟨[], [], none, none⟩
  | some query =>
      ⟨gormClauses query.Conditions,
       query.OrderBy.map
         (fun o => o.Field ++ " " ++ (if o.Descending then "DESC" else "ASC")),
       if query.Limit > 0 then some query.Limit else none,
       if query.Offset > 0 then some query.Offset else none⟩

/-- GORM's error for a lookup matching no row (`gorm.ErrRecordNotFound`). -/
def gormErrRecordNotFound : GoErr := .sentinel "record not found"

/-- The `if errors.Is(err, gorm.ErrRecordNotFound) { return dbase.ErrNotFound }`
normalization done by the gorm driver's lookup operations. -/
def gormMapNotFound (e : Option GoErr) : Option GoErr :=
  match e with
  | some err => if errIs err gormErrRecordNotFound then some ErrNotFound else some err
  | none => none

/-- `driver/gorm` `DB.Get`: `d.gdb.First(model, id)` abstracted as
`engineFirst`, followed by not-found normalization. -/
def gormGet (id : Value) (engineFirst : Value → Option GoErr) : Option GoErr :=
  gormMapNotFound (engineFirst id)

/-- `driver/gorm` `DB.FindOne`: build the query chain, take the first row,
normalize not-found. -/
def gormFindOne (q : Option Query) (engineFirst : GormTx → Option GoErr) :
    Option GoErr :=
  gormMapNotFound (engineFirst (gormBuildQuery q))

/-- `driver/gorm` `DB.Count`: build the query chain and count. -/
def gormCount (q : Option Query) (engineCount : GormTx → Int × Option GoErr) :
    Int × Option GoErr :=
  engineCount (gormBuildQuery q)

/-- `driver/gorm` `DB.Exists`: `count, err := d.Count(...); return count > 0, err`. -/
def gormExists (q : Option Query) (engineCount : GormTx → Int × Option GoErr) :
    Bool × Option GoErr :=
  let r := gormCount q engineCount
  (decide (0 < r.1), r.2)

/-! ## Specification-side model of the create dispatch protocol (§4.3) -/

/-- Spec side: the events an implemented hook contributes (an absent
capability is skipped, contributing nothing and no error). -/
def hookTrace (h : Option (Option GoErr)) (ev : Event) : List Event :=
  match h with
  | none => []
  | some _ => [ev]

/-- Spec side: the error an implemented hook fails with, if any. -/
def hookFails (h : Option (Option GoErr)) : Option GoErr :=
  match h with
  | some (some e) => some e
  | _ => none

/-- Written from the specification's dispatch protocol (§4.3): run
`BeforeSave` (if implemented) then `BeforeCreate` (if implemented), in
that order, before the write; if either before-hook fails, the write is
not attempted and the hook's error is returned verbatim; after a
successful write run `AfterCreate` then `AfterSave`, an after-hook failure
being returned with the write already performed. -/
def createDispatchSpec (m : HookModel) (w : Option GoErr) :
    List Event × Option GoErr :=
  match hookFails m.beforeSave with
  | some e => ([Event.beforeSave], some e)
  | none =>
      match hookFails m.beforeCreate with
      | some e => (hookTrace m.beforeSave .beforeSave ++ [Event.beforeCreate], some e)
      | none =>
          let pre :=
            hookTrace m.beforeSave .beforeSave ++ hookTrace m.beforeCreate .beforeCreate
          match w with
          | some e => (pre ++ [Event.write], some e)
          | none =>
              match hookFails m.afterCreate with
              | some e => (pre ++ [Event.write, Event.afterCreate], some e)
              | none =>
                  let mid := pre ++ [Event.write] ++ hookTrace m.afterCreate .afterCreate
                  match hookFails m.afterSave with
                  | some e => (mid ++ [Event.afterSave], some e)
                  | none => (mid ++ hookTrace m.afterSave .afterSave, none)

/-! ## Concrete instances used in counterexamples -/

/-- A two-condition query chain `a = 1 OR b = 2` (second condition marked OR). -/
def c2conds : List Condition :=
  [⟨"a", OpEqual, .vInt 1, false⟩, ⟨"b", OpEqual, .vInt 2, true⟩]

/-- A record with `a = 0` and every other field `2`: it fails the first
condition of `c2conds` and satisfies the second. -/
def c2record : Record := fun f => if f == "a" then .vInt 0 else .vInt 2

/-!
# Theorems
-/

/-- `errors.Is` finds the target at the bottom of any chain of wrappers. -/
theorem errIs_wrapMany (t : GoErr) (ctxs : List String) :
    errIs (wrapMany ctxs t) t = true := by
  induction ctxs with
  | nil => cases t <;> simp [wrapMany, errIs]
  | cons c cs ih => simp [wrapMany, errIs, ih]

/-- Against a sentinel target, `errors.Is` holds exactly when the fully
unwrapped base of the chain is the sentinel. -/
theorem errIs_sentinel_base (msg : String) (e : GoErr) :
    errIs e (.sentinel msg) = (errBase e == .sentinel msg) := by
  induction e with
  | sentinel m => rfl
  | wrap c inner ih => simp [errIs, errBase, ih]

/-- The matcher built for a condition does not depend on its combinator flag. -/
theorem boltMatcherOf_clearOr (c : Condition) :
    boltMatcherOf (clearOr c) = boltMatcherOf c := by
  rcases c with ⟨f, op, v, o⟩
  rfl

/-- Clearing every combinator flag leaves the bolt translation unchanged. -/
theorem convertToMatchers_clearOr (conds : List Condition) :
    convertToMatchers (conds.map clearOr) = convertToMatchers conds := by
  induction conds with
  | nil => rfl
  | cons c rest ih =>
      simp [convertToMatchers, List.filterMap_cons, boltMatcherOf_clearOr] at ih ⊢
      rw [ih]

/-- C1 (counterexample): the claim says a query holding a condition with an
operator the backend does not support fails with a "not supported" error.
At the concrete input below the bolt driver instead drops the `not_in`
condition (no matcher is produced) and `FindOne` completes with no error,
and the gorm driver renders a `prefix` condition as a plain `LIKE`
comparison with the unmodified value rather than a prefix match. -/
theorem c1_not_supported_counterexample :
    convertToMatchers [⟨"f", OpNotIn, .vList [.vInt 1], false⟩] = [] ∧
    boltFindOne (some ⟨[⟨"f", OpNotIn, .vList [.vInt 1], false⟩], 0, 0, []⟩)
      (fun _ => none) = none ∧
    gormClauseOf ⟨"f", OpPrefix, .vStr "ab", false⟩ = ⟨"f LIKE ?", [.vStr "ab"], false⟩ :=
  ⟨rfl, rfl, rfl⟩

/-- C1 (amended): no backend reports a "not supported" error.  The bolt
driver silently drops every condition whose operator produces no matcher —
`not_in`, `prefix`, `is_null`, `not_null`, and `like` with a non-string
value — translating the remaining conditions as if the dropped one were
absent; the gorm driver translates every condition to exactly one clause,
falling back to `=` for an operator outside its rendered set. -/
theorem c1_unsupported_silently_handled :
    (∀ (c : Condition) (rest : List Condition), boltMatcherOf c = none →
        convertToMatchers (c :: rest) = convertToMatchers rest) ∧
    (∀ c : Condition,
        c.Operator = OpNotIn ∨ c.Operator = OpPrefix ∨
        c.Operator = OpIsNull ∨ c.Operator = OpNotNull →
        boltMatcherOf c = none) ∧
    (∀ c : Condition, c.Operator = OpLike → (∀ s, c.Value ≠ .vStr s) →
        boltMatcherOf c = none) ∧
    (∀ conds, (gormClauses conds).length = conds.length) ∧
    (∀ op : Operator,
        op ∉ ([OpEqual, OpNotEqual, OpGreater, OpGreaterEqual, OpLess, OpLessEqual,
               OpLike, OpPrefix] : List Operator) →
        convertOperator op = "=") := by
  refine ⟨fun c rest h => ?_, fun c h => ?_, fun c hop hv => ?_, fun conds => ?_,
    fun op h => ?_⟩
  · simp [convertToMatchers, List.filterMap_cons, h]
  · rcases c with ⟨f, op, v, o⟩
    simp only at h
    rcases h with h | h | h | h <;> subst h <;> rfl
  · rcases c with ⟨f, op, v, o⟩
    simp only at hop hv
    subst hop
    cases v with
    | vStr s => exact absurd rfl (hv s)
    | vInt n => rfl
    | vBool b => rfl
    | vNull => rfl
    | vList l => rfl
  · simp [gormClauses]
  · simp only [List.mem_cons, List.mem_singleton, not_or] at h
    obtain ⟨h1, h2, h3, h4, h5, h6, h7, h8⟩ := h
    simp [convertOperator, h1, h2, h3, h4, h5, h6, h7, h8]

/-- C1 (witness): the amended theorem applied at concrete inputs: an
`is_null` condition is dropped, a `like` over an int produces no matcher,
a `prefix` condition still yields one gorm clause, and an operator outside
the enumeration renders as `=`. -/
theorem c1_unsupported_silently_handled_witness :
    convertToMatchers [⟨"g", OpIsNull, .vNull, false⟩, ⟨"h", OpEqual, .vInt 2, false⟩]
      = convertToMatchers [⟨"h", OpEqual, .vInt 2, false⟩] ∧
    boltMatcherOf ⟨"g", OpIsNull, .vNull, false⟩ = none ∧
    boltMatcherOf ⟨"g", OpLike, .vInt 3, false⟩ = none ∧
    (gormClauses [⟨"f", OpPrefix, .vStr "ab", true⟩]).length = 1 ∧
    convertOperator "between" = "=" :=
  ⟨c1_unsupported_silently_handled.1 _ _
      (c1_unsupported_silently_handled.2.1 _ (Or.inr (Or.inr (Or.inl rfl)))),
   c1_unsupported_silently_handled.2.1 _ (Or.inr (Or.inr (Or.inl rfl))),
   c1_unsupported_silently_handled.2.2.1 _ rfl (fun s h => Value.noConfusion h),
   c1_unsupported_silently_handled.2.2.2.1 _,
   c1_unsupported_silently_handled.2.2.2.2 _ (by decide)⟩

/-- C2 (counterexample): the claim says every backend evaluates a mixed
AND/OR chain as a left-associative fold.  On the chain `a = 1 OR b = 2`
and a record with `a = 0, b = 2`, the fold yields true (the OR condition
rescues the failed first one), but the bolt driver — which combines all
translated matchers conjunctively — matches nothing. -/
theorem c2_or_fold_counterexample :
    boltQueryEval (fun _ _ => false) c2conds c2record = false ∧
    leftFoldEval (fun c => condEvalBolt (fun _ _ => false) c c2record) c2conds = true :=
  ⟨rfl, rfl⟩

/-- C2 (amended): the gorm driver forwards each condition's Or flag to the
SQL chain (`tx.Or` versus `tx.Where`), but the bolt driver ignores the Or
flag entirely: its translation, and hence the set of records a query
matches, is identical to that of the same query with every combinator set
to AND, so the left-associative OR fold semantics is not preserved. -/
theorem c2_bolt_ignores_or_flag :
    (∀ (re : String → String → Bool) (conds : List Condition) (r : Record),
        boltQueryEval re conds r = boltQueryEval re (conds.map clearOr) r) ∧
    (∀ conds : List Condition,
        convertToMatchers (conds.map clearOr) = convertToMatchers conds) ∧
    (∀ conds : List Condition,
        (gormClauses conds).map GormClause.useOr = conds.map Condition.Or) := by
  refine ⟨fun re conds r => ?_, convertToMatchers_clearOr, fun conds => ?_⟩
  · simp [boltQueryEval, convertToMatchers_clearOr]
  · induction conds with
    | nil => rfl
    | cons c rest ih =>
        have huse : (gormClauseOf c).useOr = c.Or := by
          simp only [gormClauseOf]
          split_ifs <;> rfl
        simp only [gormClauses, List.map_cons] at ih ⊢
        rw [huse, ih]

/-- C3: for every model and every engine-write outcome, `Create` follows
the spec's dispatch protocol exactly: BeforeSave then BeforeCreate before
the write, AfterCreate then AfterSave after a successful write, absent
hooks skipped without error, and a failing before-hook aborting the
operation with no write attempted and its error returned verbatim. -/
theorem c3_create_hook_dispatch (m : HookModel) (w : Option GoErr) :
    Create m w = createDispatchSpec m w := by
  rcases m with ⟨bs, asv, bc, ac, bu, au, bd, ad⟩
  rcases bs with _ | (_ | e1) <;> rcases bc with _ | (_ | e2) <;>
    rcases w with _ | e3 <;> rcases ac with _ | (_ | e4) <;>
    rcases asv with _ | (_ | e5) <;> rfl

/-- C4: `Save` dispatches exactly like `Create` — the create hook ordering
— for every model and every engine outcome (whether the underlying upsert
resolved to an insert or an update is invisible to the hook dispatch), and
no update hook ever runs on the Save path. -/
theorem c4_save_uses_create_hooks (m : HookModel) (w : Option GoErr) :
    Save m w = Create m w ∧
    Event.beforeUpdate ∉ (Save m w).1 ∧ Event.afterUpdate ∉ (Save m w).1 := by
  refine ⟨rfl, ?_, ?_⟩ <;>
  · rcases m with ⟨bs, asv, bc, ac, bu, au, bd, ad⟩
    rcases bs with _ | (_ | e1) <;> rcases bc with _ | (_ | e2) <;>
      rcases w with _ | e3 <;> rcases ac with _ | (_ | e4) <;>
      rcases asv with _ | (_ | e5) <;>
      simp [Save, RunBeforeCreateHooks, RunAfterCreateHooks, runHook, andThen]

/-- C5: whenever the underlying engine reports its native "no rows" error
(Storm's `ErrNotFound`, or any error chain in which GORM's
`ErrRecordNotFound` occurs), `Get` and `FindOne` of both drivers return
the distinguished `ErrNotFound` sentinel — never the native error — and
`IsNotFound` holds on it. -/
theorem c5_lookup_returns_sentinel :
    (∀ (id : Value) (eng : Value → Option GoErr),
        eng id = some stormErrNotFound → boltGet id eng = some ErrNotFound) ∧
    (∀ (q : Option Query) (eng : List Matcher → Option GoErr),
        (∀ ms, eng ms = some stormErrNotFound) →
        boltFindOne q eng = some ErrNotFound) ∧
    (∀ (id : Value) (eng : Value → Option GoErr) (e : GoErr),
        eng id = some e → errIs e gormErrRecordNotFound = true →
        gormGet id eng = some ErrNotFound) ∧
    (∀ (q : Option Query) (eng : GormTx → Option GoErr) (e : GoErr),
        (∀ tx, eng tx = some e) → errIs e gormErrRecordNotFound = true →
        gormFindOne q eng = some ErrNotFound) ∧
    IsNotFound ErrNotFound = true ∧
    ErrNotFound ≠ stormErrNotFound ∧ ErrNotFound ≠ gormErrRecordNotFound := by
  refine ⟨?_, ?_, ?_, ?_, rfl, by decide, by decide⟩
  · intro i eng h
    simp [boltGet, boltMapNotFound, h]
  · intro q eng h
    rcases q with _ | query
    · simp [boltFindOne, boltMapNotFound, h]
    · by_cases hc : query.Conditions.isEmpty <;>
        simp [boltFindOne, boltMapNotFound, hc, h]
  · intro i eng e h1 h2
    simp [gormGet, gormMapNotFound, h1, h2]
  · intro q eng e h1 h2
    simp [gormFindOne, gormMapNotFound, h1, h2]

/-- C5 (witness): the theorem applied with engines that report zero
matches, including a wrapped GORM not-found chain. -/
theorem c5_lookup_returns_sentinel_witness :
    boltGet (.vInt 1) (fun _ => some stormErrNotFound) = some ErrNotFound ∧
    boltFindOne none (fun _ => some stormErrNotFound) = some ErrNotFound ∧
    gormGet (.vInt 1) (fun _ => some (GoErr.wrap "query failed" gormErrRecordNotFound))
      = some ErrNotFound ∧
    gormFindOne none (fun _ => some gormErrRecordNotFound) = some ErrNotFound :=
  ⟨c5_lookup_returns_sentinel.1 _ _ rfl,
   c5_lookup_returns_sentinel.2.1 _ _ (fun _ => rfl),
   c5_lookup_returns_sentinel.2.2.1 _ _ _ rfl (by decide),
   c5_lookup_returns_sentinel.2.2.2.1 _ _ _ (fun _ => rfl) (by decide)⟩

/-- C6: `IsNotFound` holds on the `ErrNotFound` sentinel and on any chain
of context wrappers around it, and fails on every error whose unwrap chain
does not bottom out at the sentinel; likewise `IsAlreadyExists` for
`ErrAlreadyExists`. -/
theorem c6_classification_through_wrapping :
    IsNotFound ErrNotFound = true ∧
    (∀ ctxs, IsNotFound (wrapMany ctxs ErrNotFound) = true) ∧
    (∀ e, errBase e ≠ ErrNotFound → IsNotFound e = false) ∧
    IsAlreadyExists ErrAlreadyExists = true ∧
    (∀ ctxs, IsAlreadyExists (wrapMany ctxs ErrAlreadyExists) = true) ∧
    (∀ e, errBase e ≠ ErrAlreadyExists → IsAlreadyExists e = false) := by
  refine ⟨rfl, fun ctxs => errIs_wrapMany _ ctxs, fun e he => ?_, rfl,
    fun ctxs => errIs_wrapMany _ ctxs, fun e he => ?_⟩ <;>
  · simp only [IsNotFound, IsAlreadyExists, ErrNotFound, ErrAlreadyExists] at he ⊢
    rw [errIs_sentinel_base]
    simpa using he

/-- C6 (witness): the theorem applied to a doubly wrapped `ErrNotFound`, a
wrapped `ErrAlreadyExists`, and unrelated errors. -/
theorem c6_classification_through_wrapping_witness :
    IsNotFound (wrapMany ["open db", "get user"] ErrNotFound) = true ∧
    IsNotFound ErrClosed = false ∧
    IsAlreadyExists (wrapMany ["create user"] ErrAlreadyExists) = true ∧
    IsAlreadyExists ErrNotFound = false :=
  ⟨c6_classification_through_wrapping.2.1 _,
   c6_classification_through_wrapping.2.2.1 ErrClosed (by decide),
   c6_classification_through_wrapping.2.2.2.2.1 _,
   c6_classification_through_wrapping.2.2.2.2.2 ErrNotFound (by decide)⟩

/-- C7: `Open` on a config whose type names no registered driver returns
the "unknown driver" error carrying the forgotten-import hint, with a
result independent of every registered factory (no factory is consulted);
when the type is registered, `Open` returns that factory's result — value
or error — unchanged. -/
theorem c7_open_unknown_driver :
    (∀ (reg : Registry) (c : Config), lookupFactory reg c.typ = none →
        Open reg (some c) = .error (unknownDriverErr c.typ)) ∧
    (∀ (reg reg' : Registry) (c : Config),
        lookupFactory reg c.typ = none → lookupFactory reg' c.typ = none →
        Open reg (some c) = Open reg' (some c)) ∧
    (∀ (reg : Registry) (c : Config) (f : Factory), lookupFactory reg c.typ = some f →
        Open reg (some c) = f c) := by
  refine ⟨fun reg c h => ?_, fun reg reg' c h h' => ?_, fun reg c f h => ?_⟩ <;>
    simp [Open, h]
  · simp [h']

/-- C7 (witness): the theorem applied to a one-driver registry, at an
unregistered and at a registered name. -/
theorem c7_open_unknown_driver_witness :
    Open [("bolt", fun _ => Except.ok 7)] (some ⟨"nope", "", ""⟩)
      = .error (unknownDriverErr "nope") ∧
    Open [("bolt", fun _ => Except.ok 7)] (some ⟨"bolt", "data/app.db", ""⟩) = .ok 7 :=
  ⟨c7_open_unknown_driver.1 _ _ rfl,
   c7_open_unknown_driver.2.2 [("bolt", fun _ => Except.ok 7)]
     ⟨"bolt", "data/app.db", ""⟩ (fun _ => Except.ok 7) rfl⟩

/-- C8: registering an already-taken name panics, and after a successful
registration of `f` under `n`, a second registration under `n` panics
while `f` remains the factory `Open` uses for `n`. -/
theorem c8_register_at_most_once :
    (∀ (reg : Registry) (n : String) (f : Factory),
        (lookupFactory reg n).isSome → Register reg n f = none) ∧
    (∀ (reg : Registry) (n : String) (f g : Factory) (reg' : Registry),
        Register reg n f = some reg' →
        Register reg' n g = none ∧ lookupFactory reg' n = some f ∧
        (∀ c : Config, c.typ = n → Open reg' (some c) = f c)) := by
  constructor
  · intro reg n f h
    simp [Register, h]
  · intro reg n f g reg' h
    have hnone : lookupFactory reg n = none := by
      by_cases hs : (lookupFactory reg n).isSome
      · simp [Register, hs] at h
      · simpa using hs
    have hreg' : reg' = reg ++ [(n, f)] := by
      simp [Register, hnone] at h
      exact h.symm
    have hfind : reg.find? (fun p => p.1 == n) = none := by
      simpa [lookupFactory] using hnone
    have hlook : lookupFactory reg' n = some f := by
      subst hreg'
      simp [lookupFactory, List.find?_append, hfind]
    refine ⟨by simp [Register, hlook], hlook, fun c hc => ?_⟩
    simp [Open, hc, hlook]

/-- C8 (witness): registering "bolt" twice: the second call panics, the
first factory stays in place and is what `Open` runs. -/
theorem c8_register_at_most_once_witness :
    Register [("bolt", fun _ => Except.ok 0)] "bolt" (fun _ => Except.ok 1) = none ∧
    lookupFactory [("bolt", fun _ => Except.ok 0)] "bolt"
      = some (fun _ => Except.ok 0) ∧
    Open [("bolt", fun _ => Except.ok 0)] (some ⟨"bolt", "", ""⟩) = .ok 0 := by
  have h := c8_register_at_most_once.2 [] "bolt" (fun _ => Except.ok 0)
    (fun _ => Except.ok 1) [("bolt", fun _ => Except.ok 0)] rfl
  exact ⟨h.1, h.2.1, h.2.2 ⟨"bolt", "", ""⟩ rfl⟩

/-- C9: for every query (nil included) and every engine behaviour, both
drivers' `Exists` is true exactly when `Count` is strictly positive, and
`Exists` propagates exactly the error `Count` returns. -/
theorem c9_exists_iff_count_pos (q : Option Query) (cAll : Int × Option GoErr)
    (cSel : List Matcher → Int × Option GoErr) (engC : GormTx → Int × Option GoErr) :
    ((boltExists q cAll cSel).1 = true ↔ 0 < (boltCount q cAll cSel).1) ∧
    (boltExists q cAll cSel).2 = (boltCount q cAll cSel).2 ∧
    ((gormExists q engC).1 = true ↔ 0 < (gormCount q engC).1) ∧
    (gormExists q engC).2 = (gormCount q engC).2 := by
  refine ⟨?_, rfl, ?_, rfl⟩ <;> simp [boltExists, gormExists]

/-- C10: the bolt driver's `Delete` never reads its `id` argument: for any
model, any engine outcome for `DeleteStruct(model)`, and any two ids, the
two calls produce identical traces and results. -/
theorem c10_bolt_delete_ignores_id (m : HookModel) (id1 id2 : Value)
    (w : Option GoErr) :
    boltDelete m id1 w = boltDelete m id2 w := rfl

end Dbase
